import Mathlib

/-!
Verification of the Otter Assign configuration model (`otter/assign/assignment.py`) and
cell generators (`otter/assign/cell_generators.py`) against their specification.

The notebook document model (`nbformat`), the cell utilities (`lock`, `get_source`), the
configuration library (`fica`) and the `AutograderConfig` class live outside the two source
files embedded here; where a definition depends on them it is modelled from the spec and
says so in its doc comment.
-/

/-- The kind tag of a document cell: code or markdown. -/
inductive CellType where
  | code
  | markdown
deriving DecidableEq

/-- Modelled from the spec: a document cell (`nbformat.NotebookNode`) as it is used by the
cell generators: a kind tag, a block of source text, and the protection ("locked") metadata
flag. -/
structure Cell where
  cell_type : CellType
  source : String
  locked : Bool
deriving DecidableEq

/-- Modelled from the spec: `nbformat.v4.new_code_cell`, an unlocked code cell with the given
source text. -/
def new_code_cell (source : String) : Cell :=
  ⟨CellType.code, source, false⟩

/-- Modelled from the spec: `nbformat.v4.new_markdown_cell`, an unlocked markdown cell with
the given source text. -/
def new_markdown_cell (source : String) : Cell :=
  ⟨CellType.markdown, source, false⟩

/-- Modelled from the spec: `otter.assign.utils.lock` (not under the embedded sources) marks
a cell so that the host document prevents the user from editing or deleting it; modelled as
setting the protection flag. -/
def lock (c : Cell) : Cell :=
  { c with locked := true }

/-- The newline character. -/
def nlChar : Char := Char.ofNat 10

/-- Split a character list at every newline, as Python `str.split("\n")` does: separators are
consumed, and the result always has at least one (possibly empty) piece. -/
def splitNl : List Char → List (List Char)
  | [] => [[]]
  | c :: cs =>
    if c = nlChar then [] :: splitNl cs
    else
      match splitNl cs with
      | [] => [[c]]
      | l :: ls => (c :: l) :: ls

/-- Join character lists with a newline between consecutive pieces, as Python
`"\n".join` does. -/
def joinNl : List (List Char) → List Char
  | [] => []
  | [l] => l
  | l :: l2 :: ls => l ++ nlChar :: joinNl (l2 :: ls)

/-- Python `"\n".join` on a list of strings. -/
def joinSourceLines (ls : List String) : String :=
  String.mk (joinNl (ls.map String.data))

/-- Modelled from the spec: `otter.assign.utils.get_source` (not under the embedded sources)
returns the cell source as a list of lines, splitting the source string at newlines. -/
def get_source (c : Cell) : List String :=
  (splitNl c.source.data).map String.mk

/-- The fixed body of the initialization cell. -/
def initCellSource : String :=
  "# Initialize Otter\nimport otter\ngrader = otter.Notebook()"

/-- `gen_init_cell`: a locked code cell initializing Otter in the notebook. -/
def gen_init_cell : Cell :=
  lock (new_code_cell initCellSource)

/-- `gen_markdown_response_cell`: an unlocked markdown response placeholder cell. -/
def gen_markdown_response_cell : Cell :=
  new_markdown_cell "_Type your answer here, replacing this text._"

/-- The fixed submission-instructions paragraph of the export markdown cell (the run of
spaces reproduces the line-continuation indentation inside the Python string literal). -/
def exportInstructionsBase : String :=
  "## Submission\n\nMake sure you have run all cells in your notebook in order before     running the cell below, so that all images/graphs appear in the output. The cell below will generate     a zipfile for you to submit. **Please save before exporting!**"

/-- The fixed comment line opening the export code cell. -/
def exportCommentLine : String :=
  "# Save your notebook first, then run this cell to export your submission."

/-- `gen_export_cells`: the markdown instructions cell (instruction text appended after a
blank line when non-empty), the export code cell whose call form depends on `pdf` and
`filtering`, and the unlocked single-space buffer cell. -/
def gen_export_cells (instruction_text : String) (pdf : Bool) (filtering : Bool) :
    List Cell :=
  let instructionsSource :=
    if instruction_text = "" then exportInstructionsBase
    else exportInstructionsBase ++ "\n\n" ++ instruction_text
  let source_lines :=
    [exportCommentLine] ++
      [if filtering && pdf then "grader.export()"
       else if !filtering then "grader.export(filtering=False)"
       else "grader.export(pdf=False)"]
  [lock (new_markdown_cell instructionsSource),
   lock (new_code_cell (joinSourceLines source_lines)),
   new_markdown_cell " "]

/-- `gen_check_all_cell`: a locked markdown instruction cell followed by a locked code cell
rerunning all autograder tests. -/
def gen_check_all_cell : List Cell :=
  [lock (new_markdown_cell
      "---\n\nTo double-check your work, the cell below will rerun all of the autograder tests."),
   lock (new_code_cell "grader.check_all()")]

/-- The fixed HTML comment marker ending a question's exported region. -/
def closeExportMarker : String :=
  "<!-- END QUESTION -->"

/-- `gen_close_export_cell`: a locked markdown cell holding the close-export marker. -/
def gen_close_export_cell : Cell :=
  lock (new_markdown_cell closeExportMarker)

/-- `add_close_export_to_cell`: deep-copy the cell, prepend the marker line and a newline
string to its list of source lines, and join the lines back with newlines. -/
def add_close_export_to_cell (c : Cell) : Cell :=
  let source := get_source c
  let source := [closeExportMarker ++ "\n", "\n"] ++ source
  { c with source := joinSourceLines source }

/-- A pure POSIX path as `pathlib.PurePath` represents it: an absolute-path flag and the
list of (non-empty) path segments. -/
structure PurePath where
  absolute : Bool
  parts : List String
deriving DecidableEq

/-- `pathlib`'s `/` operator: joining with an absolute right operand discards the left
operand entirely; otherwise the segments are appended. -/
def PurePath.div (p q : PurePath) : PurePath :=
  if q.absolute then q else ⟨p.absolute, p.parts ++ q.parts⟩

/-- Parse a path string into a `PurePath` the way `pathlib` does: a leading slash makes it
absolute, and empty segments (including the whole empty string) are dropped. -/
def PurePath.ofString (s : String) : PurePath :=
  ⟨s.startsWith "/", (s.splitOn "/").filter (fun seg => seg ≠ "")⟩

/-- The empty relative path, the parse of the default `""` subpath argument. -/
def emptyPath : PurePath :=
  ⟨false, []⟩

/-- Modelled from the spec: the export surface of `AutograderConfig` (the GenerateConfig
subtree, defined outside the embedded sources) restricted to the fields this module writes:
`lang`, `serialized_variables` and `assignment_name`; `none` means the field is unset. -/
structure AutograderConfig where
  lang : Option String
  serialized_variables : Option String
  assignment_name : Option String
deriving DecidableEq

/-- Modelled from the spec: a freshly constructed `AutograderConfig()` with every modelled
field unset. -/
def AutograderConfig.defaultConfig : AutograderConfig :=
  ⟨none, none, none⟩

/-- A user-supplied partial mapping for the `generate` subtree: `some v` sets the field. -/
structure AutograderConfigUpdate where
  lang : Option String
  serialized_variables : Option String
  assignment_name : Option String
deriving DecidableEq

/-- Modelled from the spec: fica's recursive merge on the GenerateConfig subtree — supplied
subkeys override, unspecified subkeys keep their current values. -/
def AutograderConfig.applyUpdate (c : AutograderConfig) (u : AutograderConfigUpdate) :
    AutograderConfig :=
  { lang := match u.lang with | some v => some v | none => c.lang,
    serialized_variables :=
      match u.serialized_variables with | some v => some v | none => c.serialized_variables,
    assignment_name :=
      match u.assignment_name with | some v => some v | none => c.assignment_name }

/-- The value of the `generate` key: `Union[bool, AutograderConfig]`. -/
inductive GenerateValue where
  | ofBool (b : Bool)
  | ofConfig (c : AutograderConfig)
deriving DecidableEq

/-- The `tests` subtree (`Assignment.TestsValue`): its subkeys with their defaults below. -/
structure TestsValue where
  files : Bool
  ok_format : Bool
  url_prefix : Option String
deriving DecidableEq

/-- The defaults of the `tests` subtree: `files: False`, `ok_format: True`,
`url_prefix: None`. -/
def TestsValue.defaultValue : TestsValue :=
  ⟨false, true, none⟩

/-- A user-supplied mapping for the `tests` subtree: `some v` means the subkey is present. -/
structure TestsUpdate where
  files : Option Bool
  ok_format : Option Bool
  url_prefix : Option (Option String)
deriving DecidableEq

/-- Whether a user-supplied `tests` mapping carries every subkey of the subtree. -/
def TestsUpdate.hasAllSubkeys (u : TestsUpdate) : Bool :=
  u.files.isSome && u.ok_format.isSome && (TestsUpdate.url_prefix u).isSome

/-- Apply a user-supplied `tests` mapping on top of the current subtree values. -/
def TestsValue.applyUpdate (t : TestsValue) (u : TestsUpdate) : TestsValue :=
  { files := match u.files with | some v => v | none => t.files,
    ok_format := match u.ok_format with | some v => v | none => t.ok_format,
    url_prefix :=
      match TestsUpdate.url_prefix u with | some v => v | none => TestsValue.url_prefix t }

/-- A user-supplied value for the `generate` key: a boolean or a nested mapping. -/
inductive GenerateUserValue where
  | ofBool (b : Bool)
  | ofDict (d : AutograderConfigUpdate)
deriving DecidableEq

/-- The slice of a raw user configuration mapping covering the keys this development needs;
`none` means the key is absent from the mapping. -/
structure UserConfig where
  generate : Option GenerateUserValue
  runs_on : Option String
  tests : Option TestsUpdate
deriving DecidableEq

/-- The errors this subsystem raises: fica validation failures, the configuration-state
error (`ValueError`) of `get_otter_config`, and the attribute error Python would raise when
the uncoerced boolean `True` is used as a config object. -/
inductive ConfigError where
  | validationError
  | configurationStateError
  | attributeError
deriving DecidableEq

/-- The choices of the `runs_on` validator
(`fica.validators.choice(["default", "colab", "jupyterlite"])`). -/
def runsOnChoices : List String :=
  ["default", "colab", "jupyterlite"]

/-- Modelled from the spec: fica merges the `runs_on` leaf, running its validator at merge
time; an absent key keeps the current value, a present value outside the choices is
rejected. -/
def mergeRunsOn (cur : String) : Option String → Except ConfigError String
  | none => Except.ok cur
  | some v => if v ∈ runsOnChoices then Except.ok v else Except.error ConfigError.validationError

/-- Modelled from the spec: fica merges the `tests` subtree, whose subkeys are mandatory
(`enforce_subkeys=True`): a supplied mapping missing any required subkey is rejected. -/
def mergeTests (cur : TestsValue) : Option TestsUpdate → Except ConfigError TestsValue
  | none => Except.ok cur
  | some u =>
    if u.hasAllSubkeys then Except.ok (cur.applyUpdate u)
    else Except.error ConfigError.validationError

/-- Modelled from the spec: fica merges the `generate` key — a supplied boolean overrides
the leaf, a supplied mapping merges recursively into the current config (or into a fresh
default-valued config when the current value is a boolean), an absent key keeps the current
value. -/
def mergeGenerate (cur : GenerateValue) : Option GenerateUserValue → GenerateValue
  | none => cur
  | some (GenerateUserValue.ofBool b) => GenerateValue.ofBool b
  | some (GenerateUserValue.ofDict d) =>
    match cur with
    | GenerateValue.ofConfig c => GenerateValue.ofConfig (c.applyUpdate d)
    | GenerateValue.ofBool _ =>
      GenerateValue.ofConfig (AutograderConfig.defaultConfig.applyUpdate d)

/-- The assignment configuration state: the user-configurable keys this development needs
(`name`, `variables`, `generate`, `runs_on`, `tests`) together with the derived attributes
the pipeline populates (`lang`, `result`). -/
structure Assignment where
  name : Option String
  variables_ : Option (List (String × String))
  generate : GenerateValue
  runs_on : String
  tests : TestsValue
  lang : Option String
  result : PurePath
deriving DecidableEq

/-- The default assignment configuration: every key at its declared default, the derived
attributes unset. -/
def Assignment.defaultAssignment : Assignment :=
  { name := none, variables_ := none, generate := GenerateValue.ofBool false,
    runs_on := "default", tests := TestsValue.defaultValue,
    lang := none, result := emptyPath }

/-- Modelled from the spec: `fica.Config`'s merge of a raw user mapping onto the current
state — validators run per leaf at merge time, unspecified keys keep their values. -/
def mergeUserConfig (a : Assignment) (u : UserConfig) : Except ConfigError Assignment :=
  match mergeRunsOn a.runs_on u.runs_on with
  | Except.error e => Except.error e
  | Except.ok r =>
    match mergeTests a.tests u.tests with
    | Except.error e => Except.error e
    | Except.ok t =>
      Except.ok { a with runs_on := r, tests := t,
                         generate := mergeGenerate a.generate u.generate }

/-- The boolean-to-config coercion run after `__init__` and after `update`: when `generate`
is the literal `True` it becomes a fresh default `AutograderConfig`. -/
def coerceGenerate (a : Assignment) : Assignment :=
  match a.generate with
  | GenerateValue.ofBool true =>
    { a with generate := GenerateValue.ofConfig AutograderConfig.defaultConfig }
  | _ => a

/-- The value-level effect of `coerceGenerate` on the `generate` field. -/
def coerceGenValue (g : GenerateValue) : GenerateValue :=
  match g with
  | GenerateValue.ofBool true => GenerateValue.ofConfig AutograderConfig.defaultConfig
  | _ => g

/-- `Assignment.__init__`: merge the user mapping onto the defaults, then coerce
`generate`. -/
def Assignment.construct (u : UserConfig) : Except ConfigError Assignment :=
  (mergeUserConfig Assignment.defaultAssignment u).map coerceGenerate

/-- `Assignment.update`: merge the user mapping onto the current state, then coerce
`generate`. -/
def Assignment.update (a : Assignment) (u : UserConfig) : Except ConfigError Assignment :=
  (mergeUserConfig a u).map coerceGenerate

/-- `Assignment.is_r`: whether the language of the assignment is R. -/
def Assignment.is_r (a : Assignment) : Bool :=
  match a.lang with
  | some l => l == "r"
  | none => false

/-- `Assignment.generate_enabled`: whether `generate` is not the disabled sentinel
(`self.generate is not False`). -/
def Assignment.generate_enabled (a : Assignment) : Bool :=
  match a.generate with
  | GenerateValue.ofBool false => false
  | _ => true

/-- A single-quote character as a string (used by the Python `str()` rendering of dicts). -/
def sqStr : String :=
  String.singleton (Char.ofNat 39)

/-- Python `str()` of a dict of strings, e.g. `\x7b'a': 'b'\x7d`. -/
def pyStrDict (vs : List (String × String)) : String :=
  "\x7b" ++
    String.intercalate ", " (vs.map (fun p => sqStr ++ p.1 ++ sqStr ++ ": " ++ sqStr ++ p.2 ++ sqStr)) ++
    "\x7d"

/-- Modelled from the spec: `fica.Config.get_user_config` on the GenerateConfig subtree
returns its user-facing merged representation as a mapping; restricted to the modelled
fields, a field contributes an entry exactly when it is set. -/
def AutograderConfig.get_user_config (c : AutograderConfig) : List (String × String) :=
  (match c.lang with | some v => [("lang", v)] | none => []) ++
    (match c.serialized_variables with
     | some v => [("serialized_variables", v)] | none => []) ++
    (match c.assignment_name with | some v => [("assignment_name", v)] | none => [])

/-- `Assignment.get_otter_config`: raise when Otter Generate is not configured, otherwise
inject the language, serialized variables and assignment name into the generate config and
return its user-facing representation. -/
def Assignment.get_otter_config (a : Assignment) :
    Except ConfigError (List (String × String)) :=
  if a.generate_enabled = false then Except.error ConfigError.configurationStateError
  else
    match a.generate with
    | GenerateValue.ofBool _ => Except.error ConfigError.attributeError
    | GenerateValue.ofConfig c0 =>
      let c1 := if a.is_r then { c0 with lang := some "r" } else c0
      let c2 :=
        match a.variables_ with
        | some vs => if vs = [] then c1 else { c1 with serialized_variables := some (pyStrDict vs) }
        | none => c1
      let c3 :=
        match a.name with
        | some n => if n = "" then c2 else { c2 with assignment_name := some n }
        | none => c2
      Except.ok c3.get_user_config

/-- `Assignment.get_ag_path`: `self.result / "autograder" / path`. -/
def Assignment.get_ag_path (a : Assignment) (path : PurePath) : PurePath :=
  (a.result.div ⟨false, ["autograder"]⟩).div path

/-- `Assignment.get_stu_path`: `self.result / "student" / path`. -/
def Assignment.get_stu_path (a : Assignment) (path : PurePath) : PurePath :=
  (a.result.div ⟨false, ["student"]⟩).div path

theorem joinSourceLines_pair (a b : String) : joinSourceLines [a, b] = a ++ "\n" ++ b := by
  apply String.ext
  rw [String.data_append, String.data_append]
  have h : ("\n" : String).data = [nlChar] := by decide
  rw [h]
  simp [joinSourceLines, joinNl]

/-- C2 (amended): the export code cell body is the fixed comment line followed by exactly
one `grader.export` invocation, selected by: (pdf=T, filtering=T) gives the default call;
(pdf=T, filtering=F) gives `filtering=False`; (pdf=F, filtering=T) gives `pdf=False`; and
(pdf=F, filtering=F) gives `filtering=False` (the filtering-false branch takes
precedence). -/
theorem gen_export_cells_call_form_table (instruction_text : String) :
    (gen_export_cells instruction_text true true).get? 1 =
      some (lock (new_code_cell (exportCommentLine ++ "\n" ++ "grader.export()"))) ∧
    (gen_export_cells instruction_text true false).get? 1 =
      some (lock (new_code_cell
        (exportCommentLine ++ "\n" ++ "grader.export(filtering=False)"))) ∧
    (gen_export_cells instruction_text false true).get? 1 =
      some (lock (new_code_cell (exportCommentLine ++ "\n" ++ "grader.export(pdf=False)"))) ∧
    (gen_export_cells instruction_text false false).get? 1 =
      some (lock (new_code_cell
        (exportCommentLine ++ "\n" ++ "grader.export(filtering=False)"))) := by
  refine ⟨?_, ?_, ?_, ?_⟩ <;> simp [gen_export_cells, joinSourceLines_pair]

/-- C2 (counterexample): at pdf=false, filtering=false the export code cell calls
`grader.export(filtering=False)`, not `grader.export(pdf=False)` as the claim's table
states. -/
theorem gen_export_cells_claim_counterexample :
    ((gen_export_cells "" false false).get? 1).map Cell.source =
      some (exportCommentLine ++ "\n" ++ "grader.export(filtering=False)") ∧
    ((gen_export_cells "" false false).get? 1).map Cell.source ≠
      some (exportCommentLine ++ "\n" ++ "grader.export(pdf=False)") := by
  refine ⟨?_, ?_⟩ <;> decide

/-- C3: `get_otter_config` raises the configuration-state error exactly when
`generate_enabled` is false. -/
theorem get_otter_config_state_error (a : Assignment) :
    a.get_otter_config = Except.error ConfigError.configurationStateError ↔
      a.generate_enabled = false := by
  unfold Assignment.get_otter_config
  cases hg : a.generate with
  | ofBool b => cases b <;> simp [Assignment.generate_enabled, hg]
  | ofConfig c => simp [Assignment.generate_enabled, hg]

/-- C7: for a relative subpath `p`, `get_ag_path p` is `result/autograder/p` and
`get_stu_path p` is `result/student/p`; the empty subpath yields the directory itself. -/
theorem path_helpers_relative (a : Assignment) (p : PurePath) (h : p.absolute = false) :
    a.get_ag_path p = ⟨a.result.absolute, a.result.parts ++ ["autograder"] ++ p.parts⟩ ∧
    a.get_stu_path p = ⟨a.result.absolute, a.result.parts ++ ["student"] ++ p.parts⟩ ∧
    a.get_ag_path emptyPath = ⟨a.result.absolute, a.result.parts ++ ["autograder"]⟩ ∧
    a.get_stu_path emptyPath = ⟨a.result.absolute, a.result.parts ++ ["student"]⟩ := by
  refine ⟨?_, ?_, ?_, ?_⟩ <;>
    simp [Assignment.get_ag_path, Assignment.get_stu_path, PurePath.div, emptyPath, h]

theorem path_helpers_relative_witness :
    Assignment.defaultAssignment.get_ag_path ⟨false, ["x.txt"]⟩ =
      ⟨Assignment.defaultAssignment.result.absolute,
       Assignment.defaultAssignment.result.parts ++ ["autograder"] ++ ["x.txt"]⟩ ∧
    Assignment.defaultAssignment.get_stu_path ⟨false, ["x.txt"]⟩ =
      ⟨Assignment.defaultAssignment.result.absolute,
       Assignment.defaultAssignment.result.parts ++ ["student"] ++ ["x.txt"]⟩ :=
  ⟨(path_helpers_relative Assignment.defaultAssignment ⟨false, ["x.txt"]⟩ rfl).1,
   (path_helpers_relative Assignment.defaultAssignment ⟨false, ["x.txt"]⟩ rfl).2.1⟩

/-- C10: for an absolute subpath `p`, the pathlib join discards the result root and the
`autograder`/`student` segment, so both path helpers return `p` itself. -/
theorem path_helpers_absolute (a : Assignment) (p : PurePath) (h : p.absolute = true) :
    a.get_ag_path p = p ∧ a.get_stu_path p = p := by
  refine ⟨?_, ?_⟩ <;> simp [Assignment.get_ag_path, Assignment.get_stu_path, PurePath.div, h]

theorem path_helpers_absolute_witness :
    Assignment.defaultAssignment.get_ag_path ⟨true, ["tmp", "f.txt"]⟩ =
      ⟨true, ["tmp", "f.txt"]⟩ ∧
    Assignment.defaultAssignment.get_stu_path ⟨true, ["tmp", "f.txt"]⟩ =
      ⟨true, ["tmp", "f.txt"]⟩ :=
  path_helpers_absolute Assignment.defaultAssignment ⟨true, ["tmp", "f.txt"]⟩ rfl

theorem coerceGenerate_runs_on (b : Assignment) : (coerceGenerate b).runs_on = b.runs_on := by
  obtain ⟨nm, vs, g, r, t, l, res⟩ := b
  cases g with
  | ofBool bb => cases bb <;> rfl
  | ofConfig c => rfl

theorem coerceGenerate_tests (b : Assignment) : (coerceGenerate b).tests = b.tests := by
  obtain ⟨nm, vs, g, r, t, l, res⟩ := b
  cases g with
  | ofBool bb => cases bb <;> rfl
  | ofConfig c => rfl

theorem coerceGenerate_generate (b : Assignment) :
    (coerceGenerate b).generate = coerceGenValue b.generate := by
  obtain ⟨nm, vs, g, r, t, l, res⟩ := b
  cases g with
  | ofBool bb => cases bb <;> rfl
  | ofConfig c => rfl

theorem update_runs_on_only (a : Assignment) (v : String) :
    a.update ⟨none, some v, none⟩ =
      if v ∈ runsOnChoices then Except.ok (coerceGenerate { a with runs_on := v })
      else Except.error ConfigError.validationError := by
  by_cases hv : v ∈ runsOnChoices <;>
    simp [Assignment.update, mergeUserConfig, mergeRunsOn, mergeTests, mergeGenerate, hv,
      Except.map]

/-- C6: constructing or updating with `runs_on` set to `v` succeeds exactly when `v` is one
of the three allowed choices, any other value is rejected with the validation error, and a
successful merge makes a subsequent read of `runs_on` return `v`. -/
theorem runs_on_choice_validation (a : Assignment) (v : String) :
    ((∃ a2, a.update ⟨none, some v, none⟩ = Except.ok a2) ↔ v ∈ runsOnChoices) ∧
    ((∃ a2, Assignment.construct ⟨none, some v, none⟩ = Except.ok a2) ↔ v ∈ runsOnChoices) ∧
    (v ∉ runsOnChoices →
      a.update ⟨none, some v, none⟩ = Except.error ConfigError.validationError ∧
      Assignment.construct ⟨none, some v, none⟩ = Except.error ConfigError.validationError) ∧
    (∀ a2, a.update ⟨none, some v, none⟩ = Except.ok a2 → a2.runs_on = v) ∧
    (∀ a2, Assignment.construct ⟨none, some v, none⟩ = Except.ok a2 → a2.runs_on = v) := by
  have hce : Assignment.construct ⟨none, some v, none⟩ =
      Assignment.defaultAssignment.update ⟨none, some v, none⟩ := rfl
  have hu := update_runs_on_only a v
  have hc := update_runs_on_only Assignment.defaultAssignment v
  by_cases hv : v ∈ runsOnChoices
  · rw [if_pos hv] at hu hc
    refine ⟨?_, ?_, ?_, ?_, ?_⟩
    · simp [hu, hv]
    · simp [hce, hc, hv]
    · intro h
      exact absurd hv h
    · intro a2 h
      rw [hu] at h
      injection h with h2
      rw [← h2]
      exact coerceGenerate_runs_on _
    · intro a2 h
      rw [hce, hc] at h
      injection h with h2
      rw [← h2]
      exact coerceGenerate_runs_on _
  · rw [if_neg hv] at hu hc
    refine ⟨?_, ?_, ?_, ?_, ?_⟩
    · simp [hu, hv]
    · simp [hce, hc, hv]
    · intro _
      exact ⟨hu, by rw [hce, hc]⟩
    · intro a2 h
      rw [hu] at h
      exact absurd h (by simp)
    · intro a2 h
      rw [hce, hc] at h
      exact absurd h (by simp)

theorem runs_on_choice_validation_witness :
    ({ Assignment.defaultAssignment with runs_on := "colab" } : Assignment).runs_on =
      "colab" :=
  (runs_on_choice_validation Assignment.defaultAssignment "colab").2.2.2.1
    { Assignment.defaultAssignment with runs_on := "colab" } (by rfl)

/-- C5: a user configuration supplying `tests` without every required subkey is rejected
with the validation error at construction and at update time; supplying all of its subkeys
succeeds and merges them; by contrast the nested `generate` mapping never rejects missing
subkeys (they silently fall back). -/
theorem tests_required_subkeys (a : Assignment) (t : TestsUpdate) :
    (t.hasAllSubkeys = false →
      a.update ⟨none, none, some t⟩ = Except.error ConfigError.validationError ∧
      Assignment.construct ⟨none, none, some t⟩ = Except.error ConfigError.validationError) ∧
    (t.hasAllSubkeys = true →
      ∃ a2, a.update ⟨none, none, some t⟩ = Except.ok a2 ∧
        a2.tests = a.tests.applyUpdate t) ∧
    (∀ d, ∃ a3, a.update ⟨some (GenerateUserValue.ofDict d), none, none⟩ = Except.ok a3) := by
  refine ⟨?_, ?_, ?_⟩
  · intro h
    constructor <;>
      simp [Assignment.update, Assignment.construct, mergeUserConfig, mergeRunsOn,
        mergeTests, h, Except.map]
  · intro h
    refine ⟨coerceGenerate { a with tests := a.tests.applyUpdate t }, ?_, ?_⟩
    · simp [Assignment.update, mergeUserConfig, mergeRunsOn, mergeTests, mergeGenerate, h,
        Except.map]
    · rw [coerceGenerate_tests]
  · intro d
    refine ⟨coerceGenerate
      { a with generate := mergeGenerate a.generate (some (GenerateUserValue.ofDict d)) }, ?_⟩
    simp [Assignment.update, mergeUserConfig, mergeRunsOn, mergeTests, Except.map]

theorem tests_required_subkeys_witness :
    Assignment.defaultAssignment.update ⟨none, none, some ⟨none, none, none⟩⟩ =
      Except.error ConfigError.validationError ∧
    Assignment.construct ⟨none, none, some ⟨none, none, none⟩⟩ =
      Except.error ConfigError.validationError :=
  (tests_required_subkeys Assignment.defaultAssignment ⟨none, none, none⟩).1 rfl

theorem coerceGenValue_ne_true (g : GenerateValue) :
    coerceGenValue g ≠ GenerateValue.ofBool true := by
  cases g with
  | ofBool b => cases b <;> exact fun h => nomatch h
  | ofConfig c => exact fun h => nomatch h

theorem update_ok_generate (a a2 : Assignment) (u : UserConfig)
    (h : a.update u = Except.ok a2) :
    a2.generate = coerceGenValue (mergeGenerate a.generate u.generate) := by
  unfold Assignment.update at h
  cases hm : mergeUserConfig a u with
  | error e =>
    rw [hm] at h
    simp [Except.map] at h
  | ok m =>
    rw [hm] at h
    simp [Except.map] at h
    have hg : m.generate = mergeGenerate a.generate u.generate := by
      unfold mergeUserConfig at hm
      cases hr : mergeRunsOn a.runs_on u.runs_on with
      | error e =>
        rw [hr] at hm
        simp at hm
      | ok r =>
        rw [hr] at hm
        cases ht : mergeTests a.tests u.tests with
        | error e =>
          rw [ht] at hm
          simp at hm
        | ok t =>
          rw [ht] at hm
          simp at hm
          rw [← hm]
    rw [← h, coerceGenerate_generate, hg]

/-- C1 (amended): after every construction and update, a supplied `generate: true` always
yields a GenerateConfig instance and `generate` is never the boolean true; construction with
`generate: false` leaves the boolean false unchanged; and an update whose mapping does not
explicitly set `generate` to false never collapses an already-coerced config back to a
boolean (an explicit `generate: false` does collapse it, by leaf-override merge
semantics). -/
theorem generate_coercion_invariant (a a2 a3 : Assignment) (u : UserConfig)
    (hu : a.update u = Except.ok a2) (hc : Assignment.construct u = Except.ok a3) :
    (u.generate = some (GenerateUserValue.ofBool true) →
      (∃ c, a2.generate = GenerateValue.ofConfig c) ∧
      (∃ c, a3.generate = GenerateValue.ofConfig c)) ∧
    (u.generate = some (GenerateUserValue.ofBool false) →
      a2.generate = GenerateValue.ofBool false ∧
      a3.generate = GenerateValue.ofBool false) ∧
    (u.generate = none → a3.generate = GenerateValue.ofBool false) ∧
    a2.generate ≠ GenerateValue.ofBool true ∧
    a3.generate ≠ GenerateValue.ofBool true ∧
    (∀ c0, a.generate = GenerateValue.ofConfig c0 →
      u.generate ≠ some (GenerateUserValue.ofBool false) →
      ∃ c, a2.generate = GenerateValue.ofConfig c) := by
  have h2 := update_ok_generate a a2 u hu
  have h3 := update_ok_generate Assignment.defaultAssignment a3 u hc
  refine ⟨?_, ?_, ?_, ?_, ?_, ?_⟩
  · intro hg
    rw [hg] at h2 h3
    exact ⟨⟨_, by rw [h2]; rfl⟩, ⟨_, by rw [h3]; rfl⟩⟩
  · intro hg
    rw [hg] at h2 h3
    exact ⟨h2, h3⟩
  · intro hg
    rw [hg] at h3
    exact h3
  · rw [h2]
    exact coerceGenValue_ne_true _
  · rw [h3]
    exact coerceGenValue_ne_true _
  · intro c0 hc0 hne
    rw [h2, hc0]
    cases hg : u.generate with
    | none => exact ⟨c0, rfl⟩
    | some gv =>
      cases gv with
      | ofBool b =>
        cases b
        · exact absurd hg hne
        · exact ⟨AutograderConfig.defaultConfig, rfl⟩
      | ofDict d => exact ⟨c0.applyUpdate d, rfl⟩

theorem generate_coercion_invariant_witness :
    ({ Assignment.defaultAssignment with
        generate := GenerateValue.ofConfig AutograderConfig.defaultConfig } : Assignment).generate ≠
      GenerateValue.ofBool true :=
  (generate_coercion_invariant
    { Assignment.defaultAssignment with
        generate := GenerateValue.ofConfig AutograderConfig.defaultConfig }
    { Assignment.defaultAssignment with
        generate := GenerateValue.ofConfig AutograderConfig.defaultConfig }
    { Assignment.defaultAssignment with
        generate := GenerateValue.ofConfig AutograderConfig.defaultConfig }
    ⟨some (GenerateUserValue.ofBool true), none, none⟩ rfl rfl).2.2.2.1

/-- C1 (counterexample): constructing with `generate: true` coerces to a config, but a
subsequent update that sets `generate: false` collapses the already-coerced config back to
the boolean false, so "updating ... never collapses it back to a boolean" fails. -/
theorem generate_coercion_claim_counterexample :
    (Assignment.construct ⟨some (GenerateUserValue.ofBool true), none, none⟩).map
        Assignment.generate =
      Except.ok (GenerateValue.ofConfig AutograderConfig.defaultConfig) ∧
    (({ Assignment.defaultAssignment with
        generate := GenerateValue.ofConfig AutograderConfig.defaultConfig } : Assignment).update
          ⟨some (GenerateUserValue.ofBool false), none, none⟩).map Assignment.generate =
      Except.ok (GenerateValue.ofBool false) :=
  ⟨rfl, rfl⟩

/-- C9: every cell generator is deterministic — equal inputs give equal results — and each
returns either a single cell or a fixed-length ordered sequence of cells with fixed kinds
and protection flags, in document insertion order. -/
theorem cell_generators_deterministic :
    (∀ i1 i2 : String, ∀ p1 p2 f1 f2 : Bool, i1 = i2 → p1 = p2 → f1 = f2 →
      gen_export_cells i1 p1 f1 = gen_export_cells i2 p2 f2) ∧
    (∀ i : String, ∀ p f : Bool,
      (gen_export_cells i p f).length = 3 ∧
      (gen_export_cells i p f).map Cell.cell_type =
        [CellType.markdown, CellType.code, CellType.markdown] ∧
      (gen_export_cells i p f).map Cell.locked = [true, true, false]) ∧
    gen_check_all_cell.length = 2 ∧
    gen_check_all_cell.map Cell.cell_type = [CellType.markdown, CellType.code] ∧
    gen_check_all_cell.map Cell.locked = [true, true] ∧
    gen_init_cell.cell_type = CellType.code ∧
    gen_init_cell.locked = true ∧
    gen_markdown_response_cell.cell_type = CellType.markdown ∧
    gen_markdown_response_cell.locked = false ∧
    gen_close_export_cell.cell_type = CellType.markdown ∧
    gen_close_export_cell.locked = true := by
  refine ⟨?_, ?_, rfl, rfl, rfl, rfl, rfl, rfl, rfl, rfl, rfl⟩
  · intro i1 i2 p1 p2 f1 f2 hi hp hf
    rw [hi, hp, hf]
  · intro i p f
    exact ⟨rfl, rfl, rfl⟩

theorem cell_generators_deterministic_witness :
    gen_export_cells "extra" true false = gen_export_cells "extra" true false ∧
    (gen_export_cells "extra" true false).length = 3 :=
  ⟨cell_generators_deterministic.1 "extra" "extra" true true false false rfl rfl rfl,
   (cell_generators_deterministic.2.1 "extra" true false).1⟩

/-- C4: when `generate` holds a config, `get_otter_config` returns the user-facing
representation of the generate subtree after injecting the language (forced to `"r"` for R
assignments), the serialized assignment variables when non-empty, and the assignment name
when set — under the exported field names `lang`, `serialized_variables` and
`assignment_name`. -/
theorem get_otter_config_injections (a : Assignment) (c : AutograderConfig)
    (h : a.generate = GenerateValue.ofConfig c) :
    a.get_otter_config = Except.ok (AutograderConfig.get_user_config
      { lang := if a.is_r then some "r" else c.lang,
        serialized_variables :=
          match a.variables_ with
          | some vs => if vs = [] then c.serialized_variables else some (pyStrDict vs)
          | none => c.serialized_variables,
        assignment_name :=
          match a.name with
          | some n => if n = "" then c.assignment_name else some n
          | none => c.assignment_name }) ∧
    (a.is_r = true →
      ∃ out, a.get_otter_config = Except.ok out ∧ ("lang", "r") ∈ out) ∧
    (∀ vs, a.variables_ = some vs → vs ≠ [] →
      ∃ out, a.get_otter_config = Except.ok out ∧
        ("serialized_variables", pyStrDict vs) ∈ out) ∧
    (∀ n, a.name = some n → n ≠ "" →
      ∃ out, a.get_otter_config = Except.ok out ∧ ("assignment_name", n) ∈ out) := by
  have hmain : a.get_otter_config = Except.ok (AutograderConfig.get_user_config
      { lang := if a.is_r then some "r" else c.lang,
        serialized_variables :=
          match a.variables_ with
          | some vs => if vs = [] then c.serialized_variables else some (pyStrDict vs)
          | none => c.serialized_variables,
        assignment_name :=
          match a.name with
          | some n => if n = "" then c.assignment_name else some n
          | none => c.assignment_name }) := by
    cases hir : a.is_r <;> rcases hv : a.variables_ with _ | vlist <;>
      rcases hn : a.name with _ | n <;>
      simp [Assignment.get_otter_config, Assignment.generate_enabled, h, hir, hv, hn] <;>
      split_ifs <;> simp
  refine ⟨hmain, ?_, ?_, ?_⟩
  · intro hir
    refine ⟨_, hmain, ?_⟩
    simp [AutograderConfig.get_user_config, hir]
  · intro vs0 hv hne
    refine ⟨_, hmain, ?_⟩
    simp [AutograderConfig.get_user_config, hv, hne]
  · intro n0 hn hne
    refine ⟨_, hmain, ?_⟩
    simp [AutograderConfig.get_user_config, hn, hne]

theorem get_otter_config_injections_witness :
    Assignment.get_otter_config
      ⟨some "hw01", some [("x", "int")], GenerateValue.ofConfig AutograderConfig.defaultConfig,
       "default", TestsValue.defaultValue, some "r", emptyPath⟩ =
      Except.ok [("lang", "r"), ("serialized_variables", pyStrDict [("x", "int")]),
        ("assignment_name", "hw01")] := by
  have h := (get_otter_config_injections
    ⟨some "hw01", some [("x", "int")], GenerateValue.ofConfig AutograderConfig.defaultConfig,
     "default", TestsValue.defaultValue, some "r", emptyPath⟩
    AutograderConfig.defaultConfig rfl).1
  rw [h]
  rfl

theorem splitNl_ne_nil (l : List Char) : splitNl l ≠ [] := by
  induction l with
  | nil => simp [splitNl]
  | cons c cs ih =>
    simp only [splitNl]
    split
    · simp
    · split <;> simp

theorem joinNl_splitNl (l : List Char) : joinNl (splitNl l) = l := by
  induction l with
  | nil => rfl
  | cons c cs ih =>
    simp only [splitNl]
    split
    · rename_i hc
      cases hs : splitNl cs with
      | nil => exact absurd hs (splitNl_ne_nil cs)
      | cons x xs =>
        rw [hs] at ih
        subst hc
        simp [joinNl, ih]
    · rename_i hc
      cases hs : splitNl cs with
      | nil => exact absurd hs (splitNl_ne_nil cs)
      | cons x xs =>
        rw [hs] at ih
        cases xs with
        | nil =>
          simp [joinNl] at ih ⊢
          rw [ih]
        | cons y ys =>
          simp [joinNl] at ih ⊢
          rw [ih]

theorem data_newline : ("\n" : String).data = [nlChar] := by
  decide

theorem data_four_newlines : ("\n\n\n\n" : String).data = [nlChar, nlChar, nlChar, nlChar] := by
  decide

/-- C8 (amended): `add_close_export_to_cell` returns a new, distinct cell, preserving the
kind and protection flag and leaving the input value untouched, whose source is the fixed
marker followed by four newline characters (the marker line and three blank lines) followed
by the original cell's source. -/
theorem add_close_export_immutability (c : Cell) :
    (add_close_export_to_cell c).source = closeExportMarker ++ "\n\n\n\n" ++ c.source ∧
    (add_close_export_to_cell c).cell_type = c.cell_type ∧
    (add_close_export_to_cell c).locked = c.locked ∧
    add_close_export_to_cell c ≠ c := by
  have hsrc : (add_close_export_to_cell c).source =
      closeExportMarker ++ "\n\n\n\n" ++ c.source := by
    apply String.ext
    have hmk : ∀ y : List Char, (String.mk y).data = y := fun _ => rfl
    cases hs : splitNl c.source.data with
    | nil => exact absurd hs (splitNl_ne_nil c.source.data)
    | cons x xs =>
      have hj : joinNl (x :: xs) = c.source.data := by
        rw [← hs]
        exact joinNl_splitNl c.source.data
      show joinNl ((([closeExportMarker ++ "\n", "\n"] ++ get_source c).map String.data)) =
        ((closeExportMarker ++ "\n\n\n\n" ++ c.source).data)
      unfold get_source
      rw [hs]
      simp only [List.map_append, List.map_cons, List.map_nil, List.map_map]
      have hcomp : (String.data ∘ String.mk) = id := rfl
      rw [hcomp, List.map_id]
      simp only [List.cons_append, List.nil_append]
      simp only [joinNl]
      rw [hj]
      rw [String.data_append, String.data_append, String.data_append, data_newline,
        data_four_newlines]
      simp
      decide
  refine ⟨hsrc, rfl, rfl, ?_⟩
  intro heq
  have h1 : c.source = closeExportMarker ++ "\n\n\n\n" ++ c.source := by
    rw [← hsrc, heq]
  have h2 := congrArg String.length h1
  have h3 : closeExportMarker.length = 21 := by decide
  have h4 : ("\n\n\n\n" : String).length = 4 := by decide
  rw [String.length_append, String.length_append, h3, h4] at h2
  omega

/-- C8 (counterexample): on a markdown cell with source `"foo"` the returned source is the
marker followed by four newline characters and the original source, not the marker followed
by a single blank line (two newlines) as the claim states. -/
theorem add_close_export_claim_counterexample :
    (add_close_export_to_cell ⟨CellType.markdown, "foo", false⟩).source =
      closeExportMarker ++ "\n\n\n\n" ++ "foo" ∧
    (add_close_export_to_cell ⟨CellType.markdown, "foo", false⟩).source ≠
      closeExportMarker ++ "\n\n" ++ "foo" := by
  refine ⟨?_, ?_⟩ <;> decide
